import Mathlib

/-!
Verification of the Knowledge Graph Expansion Engine of the `minh-kim-be`
backend (Rust).  The definitions below are a shallow embedding of the
program:

* a small JSON value type standing for `serde_json::Value`, with the
  access/update operations the program uses (`get`, `get_mut` + assignment,
  array push and `drain`);
* the knowledge-blob merge performed by
  `AIService::generate_insights_for_topic_node`
  (src/services/ai_service.rs, lines 739-785);
* a pure graph store standing for the Neo4j database, with the node DAO
  operations of src/dao/node_dao.rs translated from their Cypher queries;
* the node service operation `NodeService::create_node`
  (src/services/node_service.rs);
* the two orchestrators `AIService::generate_keywords` and
  `AIService::generate_insights_for_topic_node`
  (src/services/ai_service.rs), with the external collaborators (language
  model, Weaviate, web/news search, `serde_json::from_str`, the clock and
  the UUID generator) supplied as oracle inputs, and the database write of
  the enrichment pipeline supplied as an oracle outcome.

Theorems named `cN_...` settle the specification claims.
-/

/-- JSON values, standing for `serde_json::Value`.  Numbers are split into
integer and floating-point constructors; none of the verified code paths
computes with JSON numbers. -/
inductive Json where
  | null : Json
  | bool (b : Bool) : Json
  | num (n : Int) : Json
  | fnum (x : Float) : Json
  | str (s : String) : Json
  | arr (xs : List Json) : Json
  | obj (kvs : List (String × Json)) : Json

/-- Replace the value at a key in an association list, or append the pair if
the key is absent: the effect of `map.insert` / index assignment on a
`serde_json` object. -/
def setEntry : List (String × Json) → String → Json → List (String × Json)
  | [], k, v => [(k, v)]
  | (k', v') :: rest, k, v =>
    if k' = k then (k, v) :: rest else (k', v') :: setEntry rest k v

/-- First value stored at a key in an association list. -/
def lookupEntry : List (String × Json) → String → Option Json
  | [], _ => none
  | (k', v) :: rest, k => if k' = k then some v else lookupEntry rest k

/-- `value.get(key)` on a `serde_json::Value`: `Some` only on objects that
contain the key. -/
def Json.getKey : Json → String → Option Json
  | .obj kvs, k => lookupEntry kvs k
  | _, _ => none

/-- Index assignment `value[key] = v` on a `serde_json::Value` object.  On a
non-object the Rust code would panic; no verified code path reaches that
case, and the embedding leaves the value unchanged there. -/
def Json.setKey : Json → String → Json → Json
  | .obj kvs, k, v => .obj (setEntry kvs k v)
  | j, _, _ => j

/-- `value.as_str()`. -/
def Json.asStr : Json → Option String
  | .str s => some s
  | _ => none

/-- Whether a JSON value is an array (`value.as_array().is_some()`). -/
def Json.isArr : Json → Bool
  | .arr _ => true
  | _ => false

/-- The `searchHistory` update of `generate_insights_for_topic_node`
(src/services/ai_service.rs, lines 766-777): if the current knowledge has a
`searchHistory` array, push the new entry and `drain` all but the last 5;
if the key holds a non-array the code does nothing; if the key is absent it
is set to a one-element array. -/
def mergeSearchHistory (k : Json) (entry : Json) : Json :=
  match k.getKey "searchHistory" with
  | some (Json.arr l) =>
    let pushed := l ++ [entry]
    let trimmed := if pushed.length > 5 then pushed.drop (pushed.length - 5) else pushed
    k.setKey "searchHistory" (Json.arr trimmed)
  | some _ => k
  | none => k.setKey "searchHistory" (Json.arr [entry])

/-- The whole knowledge merge of `generate_insights_for_topic_node`
(src/services/ai_service.rs, lines 766-781): the `searchHistory` update
followed by overwriting `googleSearchStatus` and `latestGoogleSearch`. -/
def mergeSearchData (k entry latest status : Json) : Json :=
  ((mergeSearchHistory k entry).setKey "googleSearchStatus" status).setKey
    "latestGoogleSearch" latest

/-- A sequence of knowledge merges, one per successful enrichment call:
each list element carries the history entry, the `latestGoogleSearch` value
and the `googleSearchStatus` value of one call. -/
def enrichSeq (k : Json) (calls : List (Json × Json × Json)) : Json :=
  calls.foldl (fun acc c => mergeSearchData acc c.1 c.2.1 c.2.2) k

/-- `AIServiceError` (src/services/ai_service_trait.rs). -/
inductive AIServiceError where
  | GenerationFailed (msg : String)
  | CanvasNotFound (msg : String)
  | TopicNotFound (msg : String)
  | DatabaseError (msg : String)
  | AIServiceError (msg : String)
  | InvalidResponseFormat (msg : String)
  | SearchServiceError (msg : String)
  | WeaviateError (msg : String)
deriving DecidableEq

/-- `NodeRepositoryError` (src/dao/node_dao_trait.rs). -/
inductive NodeRepositoryError where
  | DatabaseError (msg : String)
  | NotFound
  | InvalidData (msg : String)
deriving DecidableEq

/-- The `Display` text of a `NodeRepositoryError` (the `#[error(...)]`
attributes in src/dao/node_dao_trait.rs), used when a repository error is
formatted into a service error message. -/
def NodeRepositoryError.toMessage : NodeRepositoryError → String
  | .DatabaseError msg => "Database error: " ++ msg
  | .NotFound => "Node not found"
  | .InvalidData msg => "Invalid data format: " ++ msg

/-- `NodeServiceError`: the variants constructed by
src/services/node_service.rs and matched by
src/controllers/node_controller.rs (the enum declaration shipped in
src/services/node_service_trait.rs is stale and lacks the last two). -/
inductive NodeServiceError where
  | DatabaseError (msg : String)
  | ValidationError (msg : String)
  | NotFound
  | TopicAlreadyExists
  | CanvasNotFound
deriving DecidableEq

/-- `Canvas` (src/models/canvas.rs); the two timestamp fields are carried
as strings. -/
structure Canvas where
  id : String
  author_id : String
  name : String
  system_instruction : String
  created_at : String
  updated_at : String

/-- `GraphNode` (src/models/canvas.rs). -/
structure GraphNode where
  id : String
  name : String
  node_type : String
  description : Option String
  knowledge : Option String
  position_x : Option Float
  position_y : Option Float

/-- `InsertNode` (src/models/node.rs). -/
structure InsertNode where
  id : String
  canvas_id : String
  name : String
  node_type : String
  description : Option String
  knowledge : Option String
  position_x : Option Float
  position_y : Option Float

/-- `InsertRelationship` (src/models/node.rs). -/
structure InsertRelationship where
  id : String
  canvas_id : String
  source_id : String
  target_id : String

/-- `Relationship` (src/models/node.rs); the store-assigned `created_at`
timestamp is not modelled. -/
structure Relationship where
  id : String
  canvas_id : String
  source_id : String
  target_id : String

/-- A `:Topic` node as stored by the Cypher `CREATE` in
`NodeDao::create_topic_node`: optional description/knowledge/position are
stored with their `unwrap_or_default` values. -/
structure StoredNode where
  id : String
  canvasId : String
  name : String
  nodeType : String
  description : String
  knowledge : String
  positionX : Float
  positionY : Float

/-- A stored `RELATED_TO` relationship; endpoints are recorded by node id
(the embedding assumes node ids identify nodes, see `c5` hypotheses). -/
structure StoredRel where
  id : String
  canvasId : String
  sourceId : String
  targetId : String

/-- The graph database state: `:Canvas` nodes, `:Topic` nodes, the
`RELATED_TO` edges, and the `CONTAINS` edges from canvases to topics
(canvas id, topic id). -/
structure Store where
  canvases : List Canvas
  nodes : List StoredNode
  rels : List StoredRel
  contains : List (String × String)

/-- `NodeDao::node_to_graph_node` (src/dao/node_dao.rs, lines 593-620): all
optional properties are present on stored nodes (they were stored with
default values), so they read back as `Some`. -/
def node_to_graph_node (n : StoredNode) : GraphNode :=
  { id := n.id, name := n.name, node_type := n.nodeType,
    description := some n.description, knowledge := some n.knowledge,
    position_x := some n.positionX, position_y := some n.positionY }

/-- `CanvasDao::get_canvas_by_id` as consumed by the services: the lookup
`MATCH (c:Canvas {id: $id})`. -/
def Store.get_canvas_by_id (s : Store) (id : String) : Option Canvas :=
  s.canvases.find? (fun c => c.id == id)

/-- `NodeDao::get_topic_node_by_id`: `MATCH (n:Topic {id: $id}) RETURN n`. -/
def Store.get_topic_node_by_id (s : Store) (id : String) : Option GraphNode :=
  (s.nodes.find? (fun n => n.id == id)).map node_to_graph_node

/-- `NodeDao::get_topic_node_by_name_and_canvas`:
`MATCH (n:Topic {name: $name, canvasId: $canvas_id}) RETURN n`. -/
def Store.get_topic_node_by_name_and_canvas (s : Store) (name canvas_id : String) :
    Option GraphNode :=
  (s.nodes.find? (fun n => n.name == name && n.canvasId == canvas_id)).map node_to_graph_node

/-- `NodeDao::create_topic_node` (src/dao/node_dao.rs, lines 23-74): the
`MATCH (c:Canvas)` must find the canvas, else the query returns no row and
the DAO reports a `DatabaseError`; on success the node and a `CONTAINS`
edge are appended. -/
def Store.create_topic_node (s : Store) (n : InsertNode) :
    Except NodeRepositoryError (Store × GraphNode) :=
  match s.get_canvas_by_id n.canvas_id with
  | none => .error (.DatabaseError "Failed to create node")
  | some _ =>
    let stored : StoredNode :=
      { id := n.id, canvasId := n.canvas_id, name := n.name, nodeType := n.node_type,
        description := n.description.getD "", knowledge := n.knowledge.getD "",
        positionX := n.position_x.getD 0.0, positionY := n.position_y.getD 0.0 }
    .ok ({ s with nodes := s.nodes ++ [stored],
                  contains := s.contains ++ [(n.canvas_id, n.id)] },
         node_to_graph_node stored)

/-- `NodeDao::relationship_exists` (src/dao/node_dao.rs, lines 484-516):
`MATCH (s:Topic {id})-[r:RELATED_TO]->(t:Topic {id}) RETURN COUNT(r) > 0`:
both endpoint nodes must match and an edge must join them. -/
def Store.relationship_exists (s : Store) (source_id target_id : String) : Bool :=
  s.nodes.any (fun n => n.id == source_id) &&
  s.nodes.any (fun n => n.id == target_id) &&
  s.rels.any (fun r => r.sourceId == source_id && r.targetId == target_id)

/-- `NodeDao::create_relationship` (src/dao/node_dao.rs, lines 518-589):
both endpoint `MATCH`es must succeed, else no row is produced and the DAO
reports a `DatabaseError`. -/
def Store.create_relationship (s : Store) (ir : InsertRelationship) :
    Except NodeRepositoryError (Store × Relationship) :=
  if s.nodes.any (fun n => n.id == ir.source_id) &&
     s.nodes.any (fun n => n.id == ir.target_id) then
    let stored : StoredRel :=
      { id := ir.id, canvasId := ir.canvas_id, sourceId := ir.source_id,
        targetId := ir.target_id }
    .ok ({ s with rels := s.rels ++ [stored] },
         { id := ir.id, canvas_id := ir.canvas_id, source_id := ir.source_id,
           target_id := ir.target_id })
  else .error (.DatabaseError "Failed to create relationship")

/-- `NodeDao::delete_topic_node` (src/dao/node_dao.rs, lines 275-309):
`DETACH DELETE` with the deleted count checked — a zero count is reported
as `NotFound`. -/
def Store.delete_topic_node (s : Store) (id : String) :
    Except NodeRepositoryError Store :=
  let deleted_count := s.nodes.countP (fun n => n.id == id)
  if deleted_count == 0 then .error .NotFound
  else
    .ok { s with
          nodes := s.nodes.filter (fun n => !(n.id == id)),
          rels := s.rels.filter (fun r => !(r.sourceId == id) && !(r.targetId == id)),
          contains := s.contains.filter (fun c => !(c.2 == id)) }

/-- `NodeDao::delete_topic_nodes_by_canvas` (src/dao/node_dao.rs, lines
311-341): `DETACH DELETE` whose deleted count is read into
`_deleted_count` and ignored — the operation succeeds even when nothing
matched. -/
def Store.delete_topic_nodes_by_canvas (s : Store) (canvas_id : String) :
    Except NodeRepositoryError Store :=
  let deletedIds := (s.nodes.filter (fun n => n.canvasId == canvas_id)).map (fun n => n.id)
  .ok { s with
        nodes := s.nodes.filter (fun n => !(n.canvasId == canvas_id)),
        rels := s.rels.filter
          (fun r => !(deletedIds.contains r.sourceId) && !(deletedIds.contains r.targetId)),
        contains := s.contains.filter (fun c => !(deletedIds.contains c.2)) }

/-- `CreateNodeRequest` as consumed by `NodeService::create_node`
(src/services/node_service.rs); the copy in src/models/node.rs is stale
and lacks `parent_node_id`. -/
structure CreateNodeRequest where
  name : String
  canvas_id : String
  node_type : Option String
  description : Option String
  knowledge : Option String
  position_x : Option Float
  position_y : Option Float
  parent_node_id : Option String

/-- `UpdateNodeRequest` (src/models/node.rs). -/
structure UpdateNodeRequest where
  name : Option String
  node_type : Option String
  description : Option String
  knowledge : Option String
  position_x : Option Float
  position_y : Option Float

/-- `From<CreateNodeRequest> for InsertNode` (src/models/node.rs): a fresh
UUID becomes the node id (supplied here as `freshId`). -/
def insertNodeOfRequest (freshId : String) (req : CreateNodeRequest) : InsertNode :=
  { id := freshId, canvas_id := req.canvas_id, name := req.name,
    node_type := req.node_type.getD "original", description := req.description,
    knowledge := req.knowledge, position_x := req.position_x,
    position_y := req.position_y }

/-- `s.trim().is_empty()` on a Rust string: every character is
whitespace. -/
def trimIsEmpty (s : String) : Bool :=
  s.data.all Char.isWhitespace

/-- `NodeService::validate_create_request` (src/services/node_service.rs,
lines 23-43).  `name.len()` counts UTF-8 bytes in Rust, embedded via
`String.utf8ByteSize`; `trim().is_empty()` is embedded as the
all-whitespace test `trimIsEmpty`. -/
def validate_create_request (req : CreateNodeRequest) : Except NodeServiceError Unit :=
  if trimIsEmpty req.name then
    .error (.ValidationError "Node name cannot be empty")
  else if req.name.utf8ByteSize > 100 then
    .error (.ValidationError "Node name cannot exceed 100 characters")
  else if trimIsEmpty req.canvas_id then
    .error (.ValidationError "Canvas ID cannot be empty")
  else
    match req.node_type with
    | some t =>
      if t ≠ "original" ∧ t ≠ "generated" then
        .error (.ValidationError "Node type must be 'original' or 'generated'")
      else .ok ()
    | none => .ok ()

/-- The error translation applied to every repository error inside
`NodeService::create_node`. -/
def mapRepoError : NodeRepositoryError → NodeServiceError
  | .DatabaseError msg => .DatabaseError msg
  | .InvalidData msg => .ValidationError msg
  | .NotFound => .NotFound

/-- `NodeService::create_node` (src/services/node_service.rs, lines
68-139): validation, canvas-existence check, duplicate-name check
(`TopicAlreadyExists`), node-type override when a parent is supplied, node
creation, and relationship creation to the parent.  `freshNodeId` and
`freshRelId` stand for the two `Uuid::new_v4` calls.  On an error after
the node creation the mutated store is discarded by the embedding (the
caller only sees the error, as in the source). -/
def create_node (s : Store) (freshNodeId freshRelId : String) (req : CreateNodeRequest) :
    Except NodeServiceError (Store × GraphNode) :=
  match validate_create_request req with
  | .error e => .error e
  | .ok _ =>
  match s.get_canvas_by_id req.canvas_id with
  | none => .error .CanvasNotFound
  | some _ =>
    match s.get_topic_node_by_name_and_canvas req.name req.canvas_id with
    | some _ => .error .TopicAlreadyExists
    | none =>
      let nodeType :=
        if req.parent_node_id.isSome then "generated"
        else req.node_type.getD "original"
      let insert_node := { insertNodeOfRequest freshNodeId req with node_type := nodeType }
      match s.create_topic_node insert_node with
      | .error e => .error (mapRepoError e)
      | .ok (s1, new_node) =>
        match req.parent_node_id with
        | some parent_node_id =>
          match s1.create_relationship
              { id := freshRelId, canvas_id := req.canvas_id,
                source_id := parent_node_id, target_id := new_node.id } with
          | .error e => .error (mapRepoError e)
          | .ok (s2, _) => .ok (s2, new_node)
        | none => .ok (s1, new_node)

/-- The ids of all stored `:Topic` nodes. -/
def Store.nodeIds (s : Store) : List String :=
  s.nodes.map (fun n => n.id)

/-- Whether a `RELATED_TO` edge runs from `a` to `b`. -/
def Store.isEdge (s : Store) (a b : String) : Bool :=
  s.rels.any (fun r => r.sourceId == a && r.targetId == b)

/-- Whether some `RELATED_TO` edge points into the node `id`
(the pattern `()-[:RELATED_TO]->(node)`). -/
def Store.hasIncomingRelated (s : Store) (id : String) : Bool :=
  s.rels.any (fun r => r.targetId == id)

/-- The `WHERE` predicate of `NodeDao::get_topic_node_path` on the bound
`root` node, translated literally:
`NOT ()-[:RELATED_TO]->(root:Topic {canvasId: $canvas_id}) AND
root.canvasId = $canvas_id`. -/
def Store.isQueryRoot (s : Store) (canvas_id rid : String) : Bool :=
  s.nodes.any (fun n =>
    n.id == rid &&
    !(s.hasIncomingRelated rid && n.canvasId == canvas_id) &&
    n.canvasId == canvas_id)

/-- Consecutive elements of the list are joined by edges. -/
def chainB (edge : String → String → Bool) : List String → Bool
  | [] => true
  | [_] => true
  | a :: b :: rest => edge a b && chainB edge (b :: rest)

/-- One row of the Cypher query of `NodeDao::get_topic_node_path`
(src/dao/node_dao.rs, lines 375-411), as the id sequence of its path:
nonempty, through stored nodes, along `RELATED_TO` edges, starting at a
node satisfying the root predicate and ending at the node with the
requested topic id.  (The target's canvas is not constrained by the
query.) -/
def Store.rootWalkB (s : Store) (topic_id canvas_id : String) (p : List String) : Bool :=
  !p.isEmpty &&
  p.all (fun x => s.nodeIds.contains x) &&
  chainB s.isEdge p &&
  s.isQueryRoot canvas_id (p.headI) &&
  p.getLastD "" == topic_id

/-- All duplicate-free candidate id sequences over the stored nodes; with
distinct node ids this enumerates every simple path candidate. -/
def Store.candidatePaths (s : Store) : List (List String) :=
  s.nodeIds.sublists.flatMap List.permutations'

/-- Name of the stored node with the given id (`""` if absent). -/
def Store.nameOf (s : Store) (id : String) : String :=
  ((s.nodes.find? (fun n => n.id == id)).map (fun n => n.name)).getD ""

/-- `NodeDao::get_topic_node_path` (src/dao/node_dao.rs, lines 375-411):
among the query's path rows take one of minimal length (`ORDER BY
length(path) ASC LIMIT 1` — ties are broken arbitrarily by the store; the
embedding determinizes the choice via `argmin` over the enumeration) and
return the node names along it; with no row the DAO returns the empty
list. -/
def Store.get_topic_node_path (s : Store) (topic_id canvas_id : String) : List String :=
  match ((s.candidatePaths).filter (s.rootWalkB topic_id canvas_id)).argmin List.length with
  | some p => p.map s.nameOf
  | none => []

/-- `NodeDao::get_existing_siblings` (src/dao/node_dao.rs, lines 413-447):
for every parent with a `RELATED_TO` edge into the current node (matched
with its id and canvas), collect the names of that parent's other
`RELATED_TO` targets. -/
def Store.get_existing_siblings (s : Store) (topic_id canvas_id : String) : List String :=
  if s.nodes.any (fun n => n.id == topic_id && n.canvasId == canvas_id) then
    (s.rels.filter (fun r => r.targetId == topic_id)).flatMap (fun pr =>
      ((s.rels.filter (fun r2 =>
          r2.sourceId == pr.sourceId && !(r2.targetId == topic_id) &&
          s.nodeIds.contains r2.targetId)).map (fun r2 => s.nameOf r2.targetId)))
  else []

/-- `NodeDao::get_topic_node_children` (src/dao/node_dao.rs, lines
449-481): names of the `RELATED_TO` targets of the current node. -/
def Store.get_topic_node_children (s : Store) (topic_id canvas_id : String) : List String :=
  if s.nodes.any (fun n => n.id == topic_id && n.canvasId == canvas_id) then
    ((s.rels.filter (fun r =>
        r.sourceId == topic_id && s.nodeIds.contains r.targetId)).map
      (fun r => s.nameOf r.targetId))
  else []

/-- `GenerateKeywordsRequest` (src/services/ai_service.rs). -/
structure GenerateKeywordsRequest where
  topic_name : String
  canvas_id : String
  node_count : Option Int
  is_automatic : Option Bool

/-- `GenerateKeywordsResponse` (src/services/ai_service.rs). -/
structure GenerateKeywordsResponse where
  keywords : List String
  edges : List String
deriving DecidableEq

/-- Oracles for the external collaborators of
`AIService::generate_keywords`: `parse` is `serde_json::from_str`, `ai`
the Vertex AI call outcome (raw response text), `fresh` the
`Uuid::new_v4` supply (indexed by how many UUIDs were drawn so far). -/
structure KwEnv where
  parse : String → Except String Json
  ai : Except String String
  fresh : Nat → String

/-- The keyword extraction of `AIService::generate_keywords`
(src/services/ai_service.rs, lines 295-303):
`get("keywords")`, `as_array`, keep the string elements, defaulting to the
empty list. -/
def extractKeywords (j : Json) : List String :=
  match j.getKey "keywords" with
  | some (.arr xs) => xs.filterMap Json.asStr
  | _ => []

/-- The per-keyword loop of `AIService::generate_keywords`
(src/services/ai_service.rs, lines 305-344): create a `generated` Topic
for the keyword, check `relationship_exists` from the source topic to it,
and create the `RELATED_TO` edge only when the check is false, collecting
the ids of the created relationships.  `n` counts the UUIDs drawn so
far. -/
def kwLoop (env : KwEnv) (canvas_id source_id : String) :
    List String → Store → Nat → Except AIServiceError (Store × List String)
  | [], s, _ => .ok (s, [])
  | keyword :: rest, s, n =>
    match s.create_topic_node
        { id := env.fresh n, canvas_id := canvas_id, name := keyword,
          node_type := "generated", description := none, knowledge := none,
          position_x := none, position_y := none } with
    | .error e =>
      .error (.DatabaseError ("Failed to create keyword topic: " ++ e.toMessage))
    | .ok (s1, keyword_topic) =>
      if s1.relationship_exists source_id keyword_topic.id then
        kwLoop env canvas_id source_id rest s1 (n + 1)
      else
        match s1.create_relationship
            { id := env.fresh (n + 1), canvas_id := canvas_id,
              source_id := source_id, target_id := keyword_topic.id } with
        | .error e =>
          .error (.DatabaseError ("Failed to create relationship: " ++ e.toMessage))
        | .ok (s2, relationship) =>
          match kwLoop env canvas_id source_id rest s2 (n + 2) with
          | .error e => .error e
          | .ok (s3, es) => .ok (s3, relationship.id :: es)

/-- `AIService::generate_keywords` (src/services/ai_service.rs, lines
66-350): canvas and source-topic resolution, context gathering (used only
for the prompt, which is not modelled), the model call, response parsing
with the degrade-to-empty keyword extraction, and the per-keyword creation
loop.  Returns the response together with the resulting store. -/
def generate_keywords (s : Store) (env : KwEnv) (req : GenerateKeywordsRequest) :
    Except AIServiceError (GenerateKeywordsResponse × Store) :=
  let _node_count := req.node_count.getD 3
  let _is_automatic := req.is_automatic.getD false
  match s.get_canvas_by_id req.canvas_id with
  | none => .error (.CanvasNotFound req.canvas_id)
  | some _canvas =>
    match s.get_topic_node_by_name_and_canvas req.topic_name req.canvas_id with
    | none => .error (.TopicNotFound req.topic_name)
    | some source_topic =>
      let _topic_path := s.get_topic_node_path source_topic.id req.canvas_id
      let _existing_siblings := s.get_existing_siblings source_topic.id req.canvas_id
      let _topic_children := s.get_topic_node_children source_topic.id req.canvas_id
      match env.ai with
      | .error e => .error (.AIServiceError ("AI service error: " ++ e))
      | .ok response =>
        match env.parse response with
        | .error e =>
          .error (.InvalidResponseFormat ("Failed to parse AI response: " ++ e))
        | .ok ai_result =>
          let keywords := extractKeywords ai_result
          match kwLoop env req.canvas_id source_topic.id keywords s 0 with
          | .error e => .error e
          | .ok (s', new_edges) =>
            .ok ({ keywords := keywords, edges := new_edges }, s')

/-- `SearchResult` (src/services/internet_search_trait.rs /
src/models/common.rs usage in ai_service.rs). -/
structure SearchResult where
  title : String
  url : String
  content : String
  published_date : Option String

/-- `DocumentContext` as constructed in
`generate_insights_for_topic_node` (src/services/ai_service.rs, lines
550-560; the declaring models file is stale, the fields are those
constructed and serialized there). -/
structure DocumentContext where
  filename : String
  chunk_id : String
  name : String
  description : String
  text : String
  score : Float

/-- `WeaviateSearchResult` (src/services/weaviate_client.rs): an id, a
distance score, and a JSON `properties` object. -/
structure WeaviateSearchResult where
  id : String
  score : Float
  properties : Json

/-- `GenerateInsightsForTopicNodeRequest` as consumed by
src/services/ai_service.rs (declared in the stale models file; fields are
those read by the service). -/
structure GenerateInsightsForTopicNodeRequest where
  topic_node_id : String
  canvas_id : String
  question : Option String
  system_instruction : Option String
  include_web_search : Option Bool
  include_news_search : Option Bool
  max_results : Option Int

/-- `GenerateInsightsForTopicNodeResponse` as constructed in
src/services/ai_service.rs, lines 727-736. -/
structure GenerateInsightsForTopicNodeResponse where
  insights : String
  topic_node_id : String
  canvas_id : String
  question : String
  generated_at : String
  web_search_results : Option (List SearchResult)
  news_search_results : Option (List SearchResult)
  document_context : Option (List DocumentContext)

/-- The web/news search collaborator (`internet_search_service`): the
outcome of `search` and of `search_latest_news` for the one query each
that the enrichment pipeline issues. -/
structure SearchOracle where
  web : Except String (List SearchResult)
  news : Except String (List SearchResult)

/-- Oracles for the external collaborators of
`AIService::generate_insights_for_topic_node`: the node repository reads
and the final write (whose connection-level failure the `Store` model
cannot produce), the optional Weaviate client, the optional search
service, the language-model call, `serde_json::from_str`, and the clock
(`Utc::now().to_rfc3339()`). -/
structure EnrichEnv where
  getTopic : Except String (Option GraphNode)
  getPath : Except String (List String)
  getSiblings : Except String (List String)
  getChildren : Except String (List String)
  weaviate : Option (Except String (List WeaviateSearchResult))
  searchService : Option SearchOracle
  llm : Except String String
  parse : String → Except String Json
  now : String
  updateResult : Except String (Option GraphNode)

/-- serde serialization of an `Option<String>`. -/
def encodeOptStr : Option String → Json
  | none => .null
  | some s => .str s

/-- serde serialization of a `SearchResult` (as in the `json!` literals of
src/services/ai_service.rs). -/
def encodeSearchResult (r : SearchResult) : Json :=
  .obj [("title", .str r.title), ("url", .str r.url), ("content", .str r.content),
        ("published_date", encodeOptStr r.published_date)]

/-- serde serialization of an `Option<Vec<SearchResult>>`: `None` becomes
JSON `null`. -/
def encodeOptSearchResults : Option (List SearchResult) → Json
  | none => .null
  | some rs => .arr (rs.map encodeSearchResult)

/-- serde serialization of a `Vec<DocumentContext>`. -/
def encodeDocumentContexts (ds : List DocumentContext) : Json :=
  .arr (ds.map (fun d =>
    .obj [("filename", .str d.filename), ("chunk_id", .str d.chunk_id),
          ("name", .str d.name), ("description", .str d.description),
          ("text", .str d.text), ("score", .fnum d.score)]))

/-- The result of a successful enrichment call: the response returned to
the caller together with the knowledge JSON that was passed to
`update_topic_node` (exposed for specification purposes). -/
structure EnrichOutcome where
  response : GenerateInsightsForTopicNodeResponse
  persistedKnowledge : Json

/-- The `DocumentContext` mapping applied to each Weaviate result
(src/services/ai_service.rs, lines 550-560). -/
def documentContextOfResult (r : WeaviateSearchResult) : DocumentContext :=
  { filename := ((r.properties.getKey "filename").bind Json.asStr).getD "",
    chunk_id := r.id,
    name := ((r.properties.getKey "title").bind Json.asStr).getD "",
    description := ((r.properties.getKey "description").bind Json.asStr).getD "",
    text := ((r.properties.getKey "content").bind Json.asStr).getD "",
    score := r.score }

/-- `AIService::generate_insights_for_topic_node`
(src/services/ai_service.rs, lines 485-803): topic resolution, context
gathering, the soft-failing Weaviate/web/news queries, the model call, the
response construction, the knowledge merge and the persistence write.  The
prompt composition is not modelled (its serialization step cannot fail on
the values involved).  A persistence failure is propagated with `?` after
the response value has been built. -/
def generate_insights_for_topic_node (env : EnrichEnv)
    (req : GenerateInsightsForTopicNodeRequest) :
    Except AIServiceError EnrichOutcome :=
  match env.getTopic with
  | .error e => .error (.DatabaseError ("Failed to get topic node: " ++ e))
  | .ok none => .error (.TopicNotFound req.topic_node_id)
  | .ok (some topic_node) =>
    match env.getPath with
    | .error e => .error (.DatabaseError ("Failed to get topic path: " ++ e))
    | .ok _topic_path =>
      match env.getSiblings with
      | .error e => .error (.DatabaseError ("Failed to get existing siblings: " ++ e))
      | .ok _existing_siblings =>
        match env.getChildren with
        | .error e => .error (.DatabaseError ("Failed to get topic children: " ++ e))
        | .ok _topic_children =>
          let document_context : List DocumentContext :=
            match env.weaviate with
            | some (.ok results) => results.map documentContextOfResult
            | some (.error _) => []
            | none => []
          let web_search_results : Option (List SearchResult) :=
            if req.include_web_search.getD false then
              match env.searchService with
              | some svc =>
                match svc.web with
                | .ok results => some results
                | .error _ => none
              | none => none
            else none
          let news_search_results : Option (List SearchResult) :=
            if req.include_news_search.getD false then
              match env.searchService with
              | some svc =>
                match svc.news with
                | .ok results => some results
                | .error _ => none
              | none => none
            else none
          match env.llm with
          | .error e => .error (.AIServiceError ("AI service error: " ++ e))
          | .ok response_text =>
            let question :=
              req.question.getD ("Provide comprehensive insights about: " ++ topic_node.name)
            let response : GenerateInsightsForTopicNodeResponse :=
              { insights := response_text, topic_node_id := req.topic_node_id,
                canvas_id := req.canvas_id, question := question,
                generated_at := env.now,
                web_search_results := web_search_results,
                news_search_results := news_search_results,
                document_context :=
                  if document_context.isEmpty then none else some document_context }
            let history_entry : Json :=
              .obj [("timestamp", .str env.now),
                    ("web_search_results", encodeOptSearchResults web_search_results),
                    ("news_search_results", encodeOptSearchResults news_search_results),
                    ("insights", .str response_text)]
            let latest : Json :=
              .obj [("insights", .str response_text),
                    ("web_search_results", encodeOptSearchResults web_search_results),
                    ("news_search_results", encodeOptSearchResults news_search_results),
                    ("document_context", encodeDocumentContexts document_context),
                    ("generated_at", .str env.now),
                    ("question", .str question)]
            let current_knowledge := topic_node.knowledge.getD ""
            let parsed : Json :=
              if current_knowledge.isEmpty then .obj []
              else
                match env.parse current_knowledge with
                | .ok v => v
                | .error _ => .obj []
            let updated_knowledge :=
              mergeSearchData parsed history_entry latest (.str "completed")
            match env.updateResult with
            | .error e => .error (.DatabaseError ("Failed to update topic node: " ++ e))
            | .ok _ => .ok { response := response, persistedKnowledge := updated_knowledge }

/-- Concrete topic node for the C2 scenario. -/
def c2Topic : GraphNode :=
  { id := "t1", name := "Biology", node_type := "original",
    description := some "", knowledge := some "", position_x := some 0.0,
    position_y := some 0.0 }

/-- Concrete enrichment environment for the C2 scenario: every collaborator
succeeds except the final `update_topic_node` write. -/
def c2Env : EnrichEnv :=
  { getTopic := .ok (some c2Topic),
    getPath := .ok ["Biology"],
    getSiblings := .ok [],
    getChildren := .ok [],
    weaviate := none,
    searchService := none,
    llm := .ok "insights text",
    parse := fun _ => .error "unused",
    now := "2026-01-01T00:00:00Z",
    updateResult := .error "boom" }

/-- Concrete enrichment request for the C2 scenario. -/
def c2Req : GenerateInsightsForTopicNodeRequest :=
  { topic_node_id := "t1", canvas_id := "c1", question := none,
    system_instruction := none, include_web_search := none,
    include_news_search := none, max_results := none }

/-- A second concrete environment exercising the persistence failure, for
the witness of the amended C2 statement. -/
def c2EnvW : EnrichEnv :=
  { getTopic := .ok (some c2Topic),
    getPath := .ok ["Biology"],
    getSiblings := .ok [],
    getChildren := .ok [],
    weaviate := none,
    searchService := none,
    llm := .ok "other insights",
    parse := fun _ => .error "unused",
    now := "2026-01-02T00:00:00Z",
    updateResult := .error "db down" }

/-- Concrete topic node for the C4 scenario. -/
def c4Topic : GraphNode :=
  { id := "t4", name := "Ecology", node_type := "original",
    description := some "", knowledge := some "", position_x := some 0.0,
    position_y := some 0.0 }

/-- Concrete enrichment environment for the C4 scenario: the Weaviate
gateway fails, everything else succeeds. -/
def c4Env : EnrichEnv :=
  { getTopic := .ok (some c4Topic),
    getPath := .ok ["Ecology"],
    getSiblings := .ok [],
    getChildren := .ok [],
    weaviate := some (.error "weaviate down"),
    searchService := none,
    llm := .ok "ecology insights",
    parse := fun _ => .error "unused",
    now := "2026-02-01T00:00:00Z",
    updateResult := .ok none }

/-- Concrete enrichment request for the C4 scenario. -/
def c4Req : GenerateInsightsForTopicNodeRequest :=
  { topic_node_id := "t4", canvas_id := "c4", question := some "What is ecology?",
    system_instruction := none, include_web_search := none,
    include_news_search := none, max_results := none }

/-- Concrete topic node for the C10 scenario: its knowledge JSON holds a
non-array `searchHistory`. -/
def c10Topic : GraphNode :=
  { id := "t10", name := "Physics", node_type := "original",
    description := some "", knowledge := some "notjson-handled-by-oracle",
    position_x := some 0.0, position_y := some 0.0 }

/-- Concrete enrichment environment for the C10 scenario: the stored
knowledge parses to an object whose `searchHistory` is the string
`"corrupt"`. -/
def c10Env : EnrichEnv :=
  { getTopic := .ok (some c10Topic),
    getPath := .ok ["Physics"],
    getSiblings := .ok [],
    getChildren := .ok [],
    weaviate := none,
    searchService := none,
    llm := .ok "physics insights",
    parse := fun _ => .ok (.obj [("searchHistory", .str "corrupt")]),
    now := "2026-03-01T00:00:00Z",
    updateResult := .ok none }

/-- Concrete enrichment request for the C10 scenario. -/
def c10Req : GenerateInsightsForTopicNodeRequest :=
  { topic_node_id := "t10", canvas_id := "c10", question := none,
    system_instruction := none, include_web_search := none,
    include_news_search := none, max_results := none }

/-- Concrete canvas used by the C1 scenario. -/
def c1Canvas : Canvas :=
  { id := "c1", author_id := "u1", name := "Map", system_instruction := "",
    created_at := "2026-01-01", updated_at := "2026-01-01" }

/-- The "Biology" topic of the C1 scenario. -/
def c1NodeBiology : StoredNode :=
  { id := "t1", canvasId := "c1", name := "Biology", nodeType := "original",
    description := "", knowledge := "", positionX := 0.0, positionY := 0.0 }

/-- The pre-existing topic named "X" of the C1 scenario. -/
def c1NodeX : StoredNode :=
  { id := "t2", canvasId := "c1", name := "X", nodeType := "original",
    description := "", knowledge := "", positionX := 0.0, positionY := 0.0 }

/-- Concrete store for the C1 scenario: canvas `c1` holding the topic
"Biology" and a topic named "X". -/
def c1Store : Store :=
  { canvases := [c1Canvas],
    nodes := [c1NodeBiology, c1NodeX],
    rels := [],
    contains := [("c1", "t1"), ("c1", "t2")] }

/-- Concrete keyword-expansion environment for the C1 scenario: the model
proposes the keyword "X", which already names a topic of the canvas. -/
def c1Env : KwEnv :=
  { parse := fun _ => .ok (.obj [("keywords", .arr [.str "X"])]),
    ai := .ok "model output",
    fresh := fun n => "kw-" ++ toString n }

/-- Concrete keyword-expansion request for the C1 scenario. -/
def c1Req : GenerateKeywordsRequest :=
  { topic_name := "Biology", canvas_id := "c1", node_count := some 1,
    is_automatic := some false }

/-- Concrete create-node request for the C1 witness: creating another
topic named "X" in canvas `c1`. -/
def c1CreateReq : CreateNodeRequest :=
  { name := "X", canvas_id := "c1", node_type := none, description := none,
    knowledge := none, position_x := none, position_y := none,
    parent_node_id := none }

/-- Concrete store for the C6 scenario: canvas `c6` with one topic. -/
def c6Store : Store :=
  { canvases :=
      [{ id := "c6", author_id := "u1", name := "Map6", system_instruction := "",
         created_at := "2026-01-01", updated_at := "2026-01-01" }],
    nodes :=
      [{ id := "t6", canvasId := "c6", name := "Chemistry", nodeType := "original",
         description := "", knowledge := "", positionX := 0.0, positionY := 0.0 }],
    rels := [],
    contains := [("c6", "t6")] }

/-- Concrete keyword-expansion environment for the C6 scenario: the model
reply parses as JSON but has no `keywords` field. -/
def c6Env : KwEnv :=
  { parse := fun _ => .ok (.obj [("unrelated", .str "field")]),
    ai := .ok "irrelevant",
    fresh := fun n => "kw-" ++ toString n }

/-- Concrete keyword-expansion request for the C6 scenario. -/
def c6Req : GenerateKeywordsRequest :=
  { topic_name := "Chemistry", canvas_id := "c6", node_count := none,
    is_automatic := none }

/-- Concrete store for the C7 scenario: canvas `c7` with the root topic
"Biology". -/
def c7Store : Store :=
  { canvases :=
      [{ id := "c7", author_id := "u1", name := "Map7", system_instruction := "",
         created_at := "2026-01-01", updated_at := "2026-01-01" }],
    nodes :=
      [{ id := "t7", canvasId := "c7", name := "Biology", nodeType := "original",
         description := "", knowledge := "", positionX := 0.0, positionY := 0.0 }],
    rels := [],
    contains := [("c7", "t7")] }

/-- Concrete keyword-expansion environment for the C7 scenario: the model
proposes three keywords. -/
def c7Env : KwEnv :=
  { parse := fun _ => .ok (.obj [("keywords",
      .arr [.str "Genetics", .str "Ecology", .str "Evolution"])]),
    ai := .ok "model output",
    fresh := fun n => "kw-" ++ toString n }

/-- Concrete keyword-expansion request for the C7 scenario. -/
def c7Req : GenerateKeywordsRequest :=
  { topic_name := "Biology", canvas_id := "c7", node_count := some 3,
    is_automatic := some false }

/-- The response of the C7 scenario. -/
def c7Resp : GenerateKeywordsResponse :=
  { keywords := ["Genetics", "Ecology", "Evolution"],
    edges := ["kw-1", "kw-3", "kw-5"] }

/-- The store after the C7 scenario: three `generated` topics, each joined
to "Biology" by a `RELATED_TO` edge. -/
def c7StoreAfter : Store :=
  { canvases := c7Store.canvases,
    nodes :=
      [{ id := "t7", canvasId := "c7", name := "Biology", nodeType := "original",
         description := "", knowledge := "", positionX := 0.0, positionY := 0.0 },
       { id := "kw-0", canvasId := "c7", name := "Genetics", nodeType := "generated",
         description := "", knowledge := "", positionX := 0.0, positionY := 0.0 },
       { id := "kw-2", canvasId := "c7", name := "Ecology", nodeType := "generated",
         description := "", knowledge := "", positionX := 0.0, positionY := 0.0 },
       { id := "kw-4", canvasId := "c7", name := "Evolution", nodeType := "generated",
         description := "", knowledge := "", positionX := 0.0, positionY := 0.0 }],
    rels :=
      [{ id := "kw-1", canvasId := "c7", sourceId := "t7", targetId := "kw-0" },
       { id := "kw-3", canvasId := "c7", sourceId := "t7", targetId := "kw-2" },
       { id := "kw-5", canvasId := "c7", sourceId := "t7", targetId := "kw-4" }],
    contains := [("c7", "t7"), ("c7", "kw-0"), ("c7", "kw-2"), ("c7", "kw-4")] }

/-- The empty store, used by the C8 counterexample. -/
def emptyStore : Store :=
  { canvases := [], nodes := [], rels := [], contains := [] }

/-- Concrete store for the C9 scenario: canvas `c9` with a parent topic. -/
def c9Store : Store :=
  { canvases :=
      [{ id := "c9", author_id := "u1", name := "Map9", system_instruction := "",
         created_at := "2026-01-01", updated_at := "2026-01-01" }],
    nodes :=
      [{ id := "p9", canvasId := "c9", name := "Parent", nodeType := "original",
         description := "", knowledge := "", positionX := 0.0, positionY := 0.0 }],
    rels := [],
    contains := [("c9", "p9")] }

/-- Concrete create-node request for the C9 scenario: a parent is supplied
together with an explicit `node_type` of "original". -/
def c9Req : CreateNodeRequest :=
  { name := "Child", canvas_id := "c9", node_type := some "original",
    description := none, knowledge := none, position_x := none,
    position_y := none, parent_node_id := some "p9" }

/-- Concrete store for the C8 witness: one topic in canvas `c8`. -/
def c8Store : Store :=
  { canvases :=
      [{ id := "c8", author_id := "u1", name := "Map8", system_instruction := "",
         created_at := "2026-01-01", updated_at := "2026-01-01" }],
    nodes :=
      [{ id := "t8", canvasId := "c8", name := "Topic8", nodeType := "original",
         description := "", knowledge := "", positionX := 0.0, positionY := 0.0 }],
    rels := [],
    contains := [("c8", "t8")] }

/-- Concrete store for the C5 witness: canvas `c5` with the root topic
"Biology" and its child "Genetics". -/
def c5Store : Store :=
  { canvases :=
      [{ id := "c5", author_id := "u1", name := "Map5", system_instruction := "",
         created_at := "2026-01-01", updated_at := "2026-01-01" }],
    nodes :=
      [{ id := "r5", canvasId := "c5", name := "Biology", nodeType := "original",
         description := "", knowledge := "", positionX := 0.0, positionY := 0.0 },
       { id := "a5", canvasId := "c5", name := "Genetics", nodeType := "generated",
         description := "", knowledge := "", positionX := 0.0, positionY := 0.0 }],
    rels := [{ id := "e5", canvasId := "c5", sourceId := "r5", targetId := "a5" }],
    contains := [("c5", "r5"), ("c5", "a5")] }

theorem lookupEntry_setEntry_same (kvs : List (String × Json)) (k : String) (v : Json) :
    lookupEntry (setEntry kvs k v) k = some v := by
  induction kvs with
  | nil => simp [setEntry, lookupEntry]
  | cons hd tl ih =>
    by_cases h : hd.1 = k
    · simp [setEntry, lookupEntry, h]
    · simp [setEntry, lookupEntry, h, ih]

theorem lookupEntry_setEntry_other (kvs : List (String × Json)) (k k' : String) (v : Json)
    (hkk : k' ≠ k) : lookupEntry (setEntry kvs k v) k' = lookupEntry kvs k' := by
  induction kvs with
  | nil => simp [setEntry, lookupEntry, Ne.symm hkk]
  | cons hd tl ih =>
    by_cases h : hd.1 = k
    · subst h
      simp [setEntry, lookupEntry, Ne.symm hkk]
    · by_cases h2 : hd.1 = k'
      · subst h2
        simp [setEntry, lookupEntry, h, hkk]
      · simp [setEntry, lookupEntry, h, h2, ih]

theorem getKey_setKey_same (kvs : List (String × Json)) (k : String) (v : Json) :
    (Json.setKey (.obj kvs) k v).getKey k = some v := by
  simpa [Json.setKey, Json.getKey] using lookupEntry_setEntry_same kvs k v

theorem getKey_setKey_other (j : Json) (k k' : String) (v : Json) (hkk : k' ≠ k) :
    (j.setKey k v).getKey k' = j.getKey k' := by
  cases j with
  | obj kvs =>
    simpa [Json.setKey, Json.getKey] using lookupEntry_setEntry_other kvs k k' v hkk
  | null => rfl
  | bool b => rfl
  | num n => rfl
  | fnum x => rfl
  | str s => rfl
  | arr xs => rfl

theorem obj_of_getKey_some {j : Json} {key : String} {v : Json}
    (h : j.getKey key = some v) : ∃ kvs, j = .obj kvs := by
  cases j <;> simp [Json.getKey] at h ⊢

/-- C2 counterexample: with every collaborator succeeding but the final
`update_topic_node` write failing, the enrichment call returns a
`DatabaseError` — the caller does not receive the computed enrichment
result, contrary to the claim. -/
theorem c2_counterexample :
    generate_insights_for_topic_node c2Env c2Req =
      .error (.DatabaseError "Failed to update topic node: boom") := by
  simp [generate_insights_for_topic_node, c2Env, c2Req]

/-- C2 (amended): when the enrichment call reaches the persistence step
(topic found, repository reads and the language-model call succeeded) and
`update_topic_node` fails, the failure is surfaced to the caller as a
`DatabaseError` and the computed enrichment result is not returned. -/
theorem c2_persistence_failure_replaces_result (env : EnrichEnv)
    (req : GenerateInsightsForTopicNodeRequest) (t : GraphNode)
    (p sb ch : List String) (txt e : String)
    (ht : env.getTopic = .ok (some t)) (hp : env.getPath = .ok p)
    (hs : env.getSiblings = .ok sb) (hc : env.getChildren = .ok ch)
    (hl : env.llm = .ok txt) (hu : env.updateResult = .error e) :
    generate_insights_for_topic_node env req =
      .error (.DatabaseError ("Failed to update topic node: " ++ e)) := by
  unfold generate_insights_for_topic_node
  rw [ht, hp, hs, hc, hl, hu]

/-- C2 witness: the amended statement applied at a concrete input. -/
theorem c2_persistence_failure_replaces_result_witness :
    generate_insights_for_topic_node c2EnvW c2Req =
      .error (.DatabaseError "Failed to update topic node: db down") :=
  c2_persistence_failure_replaces_result c2EnvW c2Req c2Topic
    ["Biology"] [] [] "other insights" "db down" rfl rfl rfl rfl rfl rfl

/-- C3: (1) after any knowledge merge, a `searchHistory` array in the
result has at most 5 entries; (2) six sequential enrichment merges
starting from an empty knowledge object leave `searchHistory` holding
exactly the 5 most recent entries, oldest dropped first. -/
theorem c3_search_history_cap :
    (∀ k entry latest status l,
        (mergeSearchData k entry latest status).getKey "searchHistory" =
          some (.arr l) → l.length ≤ 5) ∧
    (∀ e₁ l₁ s₁ e₂ l₂ s₂ e₃ l₃ s₃ e₄ l₄ s₄ e₅ l₅ s₅ e₆ l₆ s₆ : Json,
        (enrichSeq (.obj []) [(e₁, l₁, s₁), (e₂, l₂, s₂), (e₃, l₃, s₃),
            (e₄, l₄, s₄), (e₅, l₅, s₅), (e₆, l₆, s₆)]).getKey "searchHistory" =
          some (.arr [e₂, e₃, e₄, e₅, e₆])) := by
  constructor
  · intro k entry latest status l h
    rw [mergeSearchData, getKey_setKey_other _ _ _ _ (by decide),
      getKey_setKey_other _ _ _ _ (by decide)] at h
    cases k with
    | obj kvs =>
      rw [mergeSearchHistory] at h
      cases hk : (Json.obj kvs).getKey "searchHistory" with
      | none =>
        rw [hk] at h
        rw [getKey_setKey_same] at h
        cases h
        simp
      | some v =>
        rw [hk] at h
        cases v with
        | arr l0 =>
          rw [getKey_setKey_same] at h
          cases h
          have hlen1 : (l0 ++ [entry]).length = l0.length + 1 := by simp
          split
          · rw [List.length_drop]
            omega
          · omega
        | null => rw [hk] at h; simp at h
        | bool b => rw [hk] at h; simp at h
        | num n => rw [hk] at h; simp at h
        | fnum x => rw [hk] at h; simp at h
        | str s => rw [hk] at h; simp at h
        | obj kvs2 => rw [hk] at h; simp at h
    | null => simp [mergeSearchHistory, Json.getKey, Json.setKey] at h
    | bool b => simp [mergeSearchHistory, Json.getKey, Json.setKey] at h
    | num n => simp [mergeSearchHistory, Json.getKey, Json.setKey] at h
    | fnum x => simp [mergeSearchHistory, Json.getKey, Json.setKey] at h
    | str s => simp [mergeSearchHistory, Json.getKey, Json.setKey] at h
    | arr xs => simp [mergeSearchHistory, Json.getKey, Json.setKey] at h
  · intro e₁ l₁ s₁ e₂ l₂ s₂ e₃ l₃ s₃ e₄ l₄ s₄ e₅ l₅ s₅ e₆ l₆ s₆
    simp [enrichSeq, mergeSearchData, mergeSearchHistory, Json.getKey, Json.setKey,
      setEntry, lookupEntry]

/-- C3 witness: both conjuncts applied at concrete inputs. -/
theorem c3_search_history_cap_witness :
    ([Json.num 2, Json.num 3, Json.num 4, Json.num 5, Json.num 6].length ≤ 5) ∧
    (enrichSeq (.obj []) [(.num 1, .null, .null), (.num 2, .null, .null),
        (.num 3, .null, .null), (.num 4, .null, .null), (.num 5, .null, .null),
        (.num 6, .null, .null)]).getKey "searchHistory" =
      some (.arr [.num 2, .num 3, .num 4, .num 5, .num 6]) := by
  constructor
  · exact c3_search_history_cap.1
      (.obj [("searchHistory", .arr [.num 1, .num 2, .num 3, .num 4, .num 5])])
      (.num 6) .null (.str "completed") _
      (by simp [mergeSearchData, mergeSearchHistory, Json.getKey, Json.setKey,
        setEntry, lookupEntry])
  · exact c3_search_history_cap.2 (.num 1) .null .null (.num 2) .null .null
      (.num 3) .null .null (.num 4) .null .null (.num 5) .null .null
      (.num 6) .null .null

/-- C4: when the Weaviate document-index gateway returns an error and the
rest of the pipeline succeeds, the enrichment call still returns a
successful result whose `documentContext` is absent; the gateway error is
not propagated. -/
theorem c4_weaviate_error_is_soft (env : EnrichEnv)
    (req : GenerateInsightsForTopicNodeRequest) (t : GraphNode)
    (p sb ch : List String) (e txt : String) (u : Option GraphNode)
    (ht : env.getTopic = .ok (some t)) (hp : env.getPath = .ok p)
    (hs : env.getSiblings = .ok sb) (hc : env.getChildren = .ok ch)
    (hw : env.weaviate = some (.error e))
    (hl : env.llm = .ok txt) (hu : env.updateResult = .ok u) :
    ∃ out, generate_insights_for_topic_node env req = .ok out ∧
      out.response.document_context = none := by
  unfold generate_insights_for_topic_node
  rw [ht, hp, hs, hc, hw, hl, hu]
  exact ⟨_, rfl, rfl⟩

/-- C4 witness: the statement applied at a concrete input. -/
theorem c4_weaviate_error_is_soft_witness :
    (generate_insights_for_topic_node c4Env c4Req).map
        (fun out => out.response.document_context) = .ok none := by
  obtain ⟨out, hok, hdc⟩ :=
    c4_weaviate_error_is_soft c4Env c4Req c4Topic ["Ecology"] [] []
      "weaviate down" "ecology insights" none rfl rfl rfl rfl rfl rfl rfl
  rw [hok, Except.map, hdc]

/-- C10: when the stored knowledge parses to an object whose
`searchHistory` value is not an array, an otherwise successful enrichment
call leaves that value unchanged in the persisted knowledge (the new
history entry is silently dropped), still overwrites `googleSearchStatus`
(to "completed") and `latestGoogleSearch`, and still returns success. -/
theorem c10_non_array_history_unchanged (env : EnrichEnv)
    (req : GenerateInsightsForTopicNodeRequest) (t : GraphNode)
    (p sb ch : List String) (ks txt : String) (k v : Json) (u : Option GraphNode)
    (ht : env.getTopic = .ok (some t)) (hkn : t.knowledge = some ks)
    (hne : ks.isEmpty = false) (hparse : env.parse ks = .ok k)
    (hsh : k.getKey "searchHistory" = some v) (hv : v.isArr = false)
    (hp : env.getPath = .ok p) (hs : env.getSiblings = .ok sb)
    (hc : env.getChildren = .ok ch) (hl : env.llm = .ok txt)
    (hu : env.updateResult = .ok u) :
    ∃ out, generate_insights_for_topic_node env req = .ok out ∧
      out.persistedKnowledge.getKey "searchHistory" = some v ∧
      out.persistedKnowledge.getKey "googleSearchStatus" = some (.str "completed") ∧
      ∃ lt, out.persistedKnowledge.getKey "latestGoogleSearch" = some lt := by
  obtain ⟨kvs, hobj⟩ := obj_of_getKey_some hsh
  unfold generate_insights_for_topic_node
  rw [ht, hp, hs, hc, hl, hu]
  simp only [hkn, Option.getD_some, hne, Bool.false_eq_true, if_false, hparse]
  have hmh : mergeSearchHistory k
      (.obj [("timestamp", .str env.now),
             ("web_search_results", encodeOptSearchResults
                (if req.include_web_search.getD false then
                   match env.searchService with
                   | some svc => match svc.web with
                     | .ok results => some results
                     | .error _ => none
                   | none => none
                 else none)),
             ("news_search_results", encodeOptSearchResults
                (if req.include_news_search.getD false then
                   match env.searchService with
                   | some svc => match svc.news with
                     | .ok results => some results
                     | .error _ => none
                   | none => none
                 else none)),
             ("insights", .str txt)]) = k := by
    rw [mergeSearchHistory, hsh]
    cases v <;> first
      | rfl
      | simp [Json.isArr] at hv
  refine ⟨_, rfl, ?_, ?_, ?_⟩
  · rw [mergeSearchData, getKey_setKey_other _ _ _ _ (by decide),
      getKey_setKey_other _ _ _ _ (by decide), hmh, hsh]
  · rw [mergeSearchData, getKey_setKey_other _ _ _ _ (by decide), hmh, hobj,
      getKey_setKey_same]
  · rw [mergeSearchData, hmh, hobj]
    rw [show (Json.obj kvs).setKey "googleSearchStatus" (.str "completed") =
        .obj (setEntry kvs "googleSearchStatus" (.str "completed")) from rfl]
    exact ⟨_, getKey_setKey_same _ _ _⟩

/-- C10 witness: the statement applied at a concrete input. -/
theorem c10_non_array_history_unchanged_witness :
    (generate_insights_for_topic_node c10Env c10Req).map
        (fun out => (out.persistedKnowledge.getKey "searchHistory",
                     out.persistedKnowledge.getKey "googleSearchStatus")) =
      .ok (some (.str "corrupt"), some (.str "completed")) := by
  obtain ⟨out, hok, h1, h2, _⟩ :=
    c10_non_array_history_unchanged c10Env c10Req c10Topic
      ["Physics"] [] [] "notjson-handled-by-oracle" "physics insights"
      (.obj [("searchHistory", .str "corrupt")]) (.str "corrupt") none
      rfl rfl rfl rfl rfl rfl rfl rfl rfl rfl rfl
  rw [hok, Except.map, h1, h2]

theorem create_topic_node_ok {s : Store} {insert : InsertNode} {s1 : Store} {g : GraphNode}
    (h : s.create_topic_node insert = .ok (s1, g)) :
    ∃ stored : StoredNode,
      s1.nodes = s.nodes ++ [stored] ∧ s1.rels = s.rels ∧ s1.canvases = s.canvases ∧
      g = node_to_graph_node stored ∧ stored.name = insert.name ∧
      stored.nodeType = insert.node_type ∧ stored.canvasId = insert.canvas_id ∧
      stored.id = insert.id := by
  unfold Store.create_topic_node at h
  cases hc : s.get_canvas_by_id insert.canvas_id with
  | none => rw [hc] at h; cases h
  | some c =>
    rw [hc] at h
    obtain ⟨h1, h2⟩ := Prod.mk.injEq .. ▸ (Except.ok.injEq .. ▸ h :)
    exact ⟨_, by rw [← h1], by rw [← h1], by rw [← h1], h2.symm, rfl, rfl, rfl, rfl⟩

theorem create_relationship_ok {s : Store} {ir : InsertRelationship} {s2 : Store}
    {rel : Relationship} (h : s.create_relationship ir = .ok (s2, rel)) :
    ∃ stored : StoredRel,
      s2.nodes = s.nodes ∧ s2.canvases = s.canvases ∧
      s2.rels = s.rels ++ [stored] ∧ rel.id = ir.id ∧ stored.id = ir.id ∧
      stored.sourceId = ir.source_id ∧ stored.targetId = ir.target_id ∧
      stored.canvasId = ir.canvas_id := by
  unfold Store.create_relationship at h
  split at h
  · obtain ⟨h1, h2⟩ := Prod.mk.injEq .. ▸ (Except.ok.injEq .. ▸ h :)
    exact ⟨_, by rw [← h1], by rw [← h1], by rw [← h1], by rw [← h2], rfl, rfl, rfl, rfl⟩
  · cases h

theorem kwLoop_spec (env : KwEnv) (cid src : String) :
    ∀ (kws : List String) (s : Store) (n : Nat) (s' : Store) (es : List String),
      kwLoop env cid src kws s n = .ok (s', es) →
      ∃ newNodes newRels,
        s'.nodes = s.nodes ++ newNodes ∧
        newNodes.map (fun nd => nd.name) = kws ∧
        (∀ nd ∈ newNodes, nd.nodeType = "generated" ∧ nd.canvasId = cid) ∧
        s'.rels = s.rels ++ newRels ∧
        es = newRels.map (fun r => r.id) ∧
        (∀ r ∈ newRels, r.sourceId = src ∧ r.canvasId = cid) := by
  intro kws
  induction kws with
  | nil =>
    intro s n s' es hok
    rw [kwLoop] at hok
    obtain ⟨h1, h2⟩ := Prod.mk.injEq .. ▸ (Except.ok.injEq .. ▸ hok :)
    subst h1; subst h2
    exact ⟨[], [], by simp, rfl, by simp, by simp, rfl, by simp⟩
  | cons kw rest ih =>
    intro s n s' es hok
    rw [kwLoop] at hok
    cases hcr : s.create_topic_node
        { id := env.fresh n, canvas_id := cid, name := kw,
          node_type := "generated", description := none, knowledge := none,
          position_x := none, position_y := none } with
    | error e => rw [hcr] at hok; dsimp only at hok; cases hok
    | ok pair =>
      obtain ⟨s1, node⟩ := pair
      rw [hcr] at hok
      dsimp only at hok
      obtain ⟨stored, hn1, hr1, hc1, hg1, hname, htype, hcanvas, hid⟩ :=
        create_topic_node_ok hcr
      by_cases hex : s1.relationship_exists src node.id
      · rw [if_pos hex] at hok
        obtain ⟨nn, nr, h1, h2, h3, h4, h5, h6⟩ := ih s1 (n + 1) s' es hok
        refine ⟨stored :: nn, nr, ?_, ?_, ?_, ?_, h5, h6⟩
        · rw [h1, hn1]; simp
        · simp [h2, hname]
        · intro nd hnd
          rcases List.mem_cons.mp hnd with h | h
          · subst h; exact ⟨htype, hcanvas⟩
          · exact h3 nd h
        · rw [h4, hr1]
      · rw [if_neg hex] at hok
        cases hcrel : s1.create_relationship
            { id := env.fresh (n + 1), canvas_id := cid, source_id := src,
              target_id := node.id } with
        | error e => rw [hcrel] at hok; dsimp only at hok; cases hok
        | ok pair2 =>
          obtain ⟨s2, rel⟩ := pair2
          rw [hcrel] at hok
          dsimp only at hok
          obtain ⟨storedR, hn2, hc2, hr2, hrid, hsid, hsrc, htgt, hcv⟩ :=
            create_relationship_ok hcrel
          cases hrec : kwLoop env cid src rest s2 (n + 2) with
          | error e => rw [hrec] at hok; dsimp only at hok; cases hok
          | ok pair3 =>
            obtain ⟨s3, es3⟩ := pair3
            rw [hrec] at hok
            dsimp only at hok
            obtain ⟨h1, h2⟩ := Prod.mk.injEq .. ▸ (Except.ok.injEq .. ▸ hok :)
            subst h1; subst h2
            obtain ⟨nn, nr, g1, g2, g3, g4, g5, g6⟩ := ih s2 (n + 2) s3 es3 hrec
            refine ⟨stored :: nn, storedR :: nr, ?_, ?_, ?_, ?_, ?_, ?_⟩
            · rw [g1, hn2, hn1]; simp
            · simp [g2, hname]
            · intro nd hnd
              rcases List.mem_cons.mp hnd with h | h
              · subst h; exact ⟨htype, hcanvas⟩
              · exact g3 nd h
            · rw [g4, hr2, hr1]; simp
            · simp [g5, hrid, hsid]
            · intro r hr
              rcases List.mem_cons.mp hr with h | h
              · subst h; exact ⟨hsrc, hcv⟩
              · exact g6 r h

/-- C7: on every successful keyword-expansion call, the store gains one new
`generated` topic in the request's canvas per returned keyword (in order),
and the returned `edges` list holds exactly the ids of the `RELATED_TO`
relationships actually created (each from the resolved source topic; edges
skipped by the `relationship_exists` check are excluded because only
created relationships are appended to the store). -/
theorem c7_keyword_expansion_effects (s : Store) (env : KwEnv)
    (req : GenerateKeywordsRequest) (resp : GenerateKeywordsResponse) (s' : Store)
    (hok : generate_keywords s env req = .ok (resp, s')) :
    ∃ source_topic newNodes newRels,
      s.get_topic_node_by_name_and_canvas req.topic_name req.canvas_id =
        some source_topic ∧
      s'.nodes = s.nodes ++ newNodes ∧
      newNodes.map (fun nd => nd.name) = resp.keywords ∧
      (∀ nd ∈ newNodes, nd.nodeType = "generated" ∧ nd.canvasId = req.canvas_id) ∧
      s'.rels = s.rels ++ newRels ∧
      resp.edges = newRels.map (fun r => r.id) ∧
      (∀ r ∈ newRels, r.sourceId = source_topic.id ∧ r.canvasId = req.canvas_id) := by
  unfold generate_keywords at hok
  cases hcv : s.get_canvas_by_id req.canvas_id with
  | none => rw [hcv] at hok; dsimp only at hok; cases hok
  | some canvas =>
    rw [hcv] at hok
    dsimp only at hok
    cases hst : s.get_topic_node_by_name_and_canvas req.topic_name req.canvas_id with
    | none => rw [hst] at hok; dsimp only at hok; cases hok
    | some source_topic =>
      rw [hst] at hok
      dsimp only at hok
      cases hai : env.ai with
      | error e => rw [hai] at hok; dsimp only at hok; cases hok
      | ok response =>
        rw [hai] at hok
        dsimp only at hok
        cases hpar : env.parse response with
        | error e => rw [hpar] at hok; dsimp only at hok; cases hok
        | ok ai_result =>
          rw [hpar] at hok
          dsimp only at hok
          cases hloop : kwLoop env req.canvas_id source_topic.id
              (extractKeywords ai_result) s 0 with
          | error e => rw [hloop] at hok; dsimp only at hok; cases hok
          | ok pair =>
            obtain ⟨s2, es⟩ := pair
            rw [hloop] at hok
            dsimp only at hok
            obtain ⟨h1, h2⟩ := Prod.mk.injEq .. ▸ (Except.ok.injEq .. ▸ hok :)
            obtain ⟨nn, nr, g1, g2, g3, g4, g5, g6⟩ :=
              kwLoop_spec env req.canvas_id source_topic.id
                (extractKeywords ai_result) s 0 s2 es hloop
            subst h2
            refine ⟨source_topic, nn, nr, rfl, g1, ?_, g3, g4, ?_, g6⟩
            · rw [g2, ← h1]
            · rw [← h1]; exact g5

/-- C7 witness: the statement applied at the concrete scenario of the spec
(three keywords proposed for a canvas whose only topic is "Biology"). -/
theorem c7_keyword_expansion_effects_witness :
    c7StoreAfter.nodes.map (fun n => n.name) =
      c7Store.nodes.map (fun n => n.name) ++ c7Resp.keywords := by
  obtain ⟨srcT, nn, nr, _, h1, h2, _, _, _, _⟩ :=
    c7_keyword_expansion_effects c7Store c7Env c7Req c7Resp c7StoreAfter rfl
  rw [h1, List.map_append, h2]

/-- C1 counterexample: with the topic "X" already present in canvas `c1`,
the keyword-expansion call whose model reply proposes the keyword "X"
succeeds and leaves two topics named "X" in the canvas — the loop performs
no duplicate-name check, contrary to the claim that every creating
operation rejects duplicates. -/
theorem c1_counterexample :
    (generate_keywords c1Store c1Env c1Req).toOption.map
        (fun out => out.2.nodes.countP (fun n => n.name == "X" && n.canvasId == "c1")) =
      some 2 := by
  rfl

/-- C1 (amended): the node-service create operation rejects a duplicate
name with `TopicAlreadyExists` (and creates nothing); the keyword-expansion
loop performs no duplicate-name check (see the counterexample). -/
theorem c1_create_node_rejects_duplicate (s : Store) (nid rid : String)
    (req : CreateNodeRequest)
    (hval : validate_create_request req = .ok ())
    (hcv : ∃ c, s.get_canvas_by_id req.canvas_id = some c)
    (hdup : ∃ n ∈ s.nodes, n.name = req.name ∧ n.canvasId = req.canvas_id) :
    create_node s nid rid req = .error .TopicAlreadyExists := by
  obtain ⟨c, hc⟩ := hcv
  have hfind : ∃ g, s.get_topic_node_by_name_and_canvas req.name req.canvas_id = some g := by
    unfold Store.get_topic_node_by_name_and_canvas
    obtain ⟨n, hn, h1, h2⟩ := hdup
    have : (s.nodes.find? (fun n => n.name == req.name && n.canvasId == req.canvas_id)).isSome := by
      rw [List.find?_isSome]
      exact ⟨n, hn, by simp [h1, h2]⟩
    obtain ⟨g, hg⟩ := Option.isSome_iff_exists.mp this
    exact ⟨node_to_graph_node g, by rw [hg]; rfl⟩
  obtain ⟨g, hg⟩ := hfind
  unfold create_node
  rw [hval]
  dsimp only
  rw [hc]
  dsimp only
  rw [hg]

/-- C1 witness: the amended statement applied at the concrete C1 store. -/
theorem c1_create_node_rejects_duplicate_witness :
    create_node c1Store "n-new" "r-new" c1CreateReq = .error .TopicAlreadyExists :=
  c1_create_node_rejects_duplicate c1Store "n-new" "r-new" c1CreateReq rfl
    ⟨c1Canvas, rfl⟩ ⟨c1NodeX, List.mem_cons.mpr (Or.inr (List.mem_cons.mpr (Or.inl rfl))), rfl, rfl⟩

theorem extractKeywords_eq_nil {j : Json}
    (h : j.getKey "keywords" = none ∨
         ∃ v, j.getKey "keywords" = some v ∧ v.isArr = false) :
    extractKeywords j = [] := by
  unfold extractKeywords
  rcases h with h | ⟨v, hv, hva⟩
  · rw [h]
  · rw [hv]
    cases v <;> first
      | rfl
      | simp [Json.isArr] at hva

/-- C6: once canvas and source topic resolve and the model call succeeds,
(1) a model reply that cannot be parsed as JSON yields
`InvalidResponseFormat`; (2) a reply that parses but lacks a usable
`keywords` array (missing key or non-array value) makes the call succeed
with an empty keyword list and an unchanged store; (3) a reply whose
`keywords` is an array makes any successful call return exactly its string
elements (non-strings filtered out). -/
theorem c6_parse_degrades_to_empty (s : Store) (env : KwEnv)
    (req : GenerateKeywordsRequest) (canvas : Canvas) (source_topic : GraphNode)
    (txt : String)
    (hc : s.get_canvas_by_id req.canvas_id = some canvas)
    (ht : s.get_topic_node_by_name_and_canvas req.topic_name req.canvas_id =
      some source_topic)
    (hai : env.ai = .ok txt) :
    (∀ e, env.parse txt = .error e →
      generate_keywords s env req =
        .error (.InvalidResponseFormat ("Failed to parse AI response: " ++ e))) ∧
    (∀ j, env.parse txt = .ok j →
      (j.getKey "keywords" = none ∨
        ∃ v, j.getKey "keywords" = some v ∧ v.isArr = false) →
      generate_keywords s env req = .ok ({ keywords := [], edges := [] }, s)) ∧
    (∀ j xs resp s2, env.parse txt = .ok j → j.getKey "keywords" = some (.arr xs) →
      generate_keywords s env req = .ok (resp, s2) →
      resp.keywords = xs.filterMap Json.asStr) := by
  refine ⟨?_, ?_, ?_⟩
  · intro e hpe
    unfold generate_keywords
    rw [hc]
    dsimp only
    rw [ht]
    dsimp only
    rw [hai]
    dsimp only
    rw [hpe]
  · intro j hpj hj
    unfold generate_keywords
    rw [hc]
    dsimp only
    rw [ht]
    dsimp only
    rw [hai]
    dsimp only
    rw [hpj]
    dsimp only
    rw [extractKeywords_eq_nil hj]
    rw [kwLoop]
  · intro j xs resp s2 hpj hjk hok
    unfold generate_keywords at hok
    rw [hc] at hok
    dsimp only at hok
    rw [ht] at hok
    dsimp only at hok
    rw [hai] at hok
    dsimp only at hok
    rw [hpj] at hok
    dsimp only at hok
    cases hloop : kwLoop env req.canvas_id source_topic.id (extractKeywords j) s 0 with
    | error e => rw [hloop] at hok; dsimp only at hok; cases hok
    | ok pair =>
      obtain ⟨s3, es⟩ := pair
      rw [hloop] at hok
      dsimp only at hok
      obtain ⟨h1, h2⟩ := Prod.mk.injEq .. ▸ (Except.ok.injEq .. ▸ hok :)
      rw [← h1]
      unfold extractKeywords
      rw [hjk]

/-- C6 witness: conjunct (2) applied at a concrete input whose model reply
parses to an object without a `keywords` field. -/
theorem c6_parse_degrades_to_empty_witness :
    generate_keywords c6Store c6Env c6Req = .ok ({ keywords := [], edges := [] }, c6Store) := by
  exact (c6_parse_degrades_to_empty c6Store c6Env c6Req
      { id := "c6", author_id := "u1", name := "Map6", system_instruction := "",
        created_at := "2026-01-01", updated_at := "2026-01-01" }
      (node_to_graph_node
        { id := "t6", canvasId := "c6", name := "Chemistry", nodeType := "original",
          description := "", knowledge := "", positionX := 0.0, positionY := 0.0 })
      "irrelevant" rfl rfl rfl).2.1
    (.obj [("unrelated", .str "field")]) rfl (Or.inl rfl)

/-- C8 counterexample: deleting all topics of a canvas that matches no
node succeeds silently instead of returning `NotFound` — the deleted
count is read into `_deleted_count` and ignored. -/
theorem c8_counterexample :
    emptyStore.delete_topic_nodes_by_canvas "c1" = .ok emptyStore := by
  rfl

/-- C8 (amended): deleting a single topic whose id matches no node returns
`NotFound`; deleting the topics of a canvas always succeeds, silently,
even when nothing matches. -/
theorem c8_delete_semantics (s : Store) (id canvas_id : String)
    (h : ∀ n ∈ s.nodes, n.id ≠ id) :
    s.delete_topic_node id = .error .NotFound ∧
    ∃ s2, s.delete_topic_nodes_by_canvas canvas_id = .ok s2 := by
  constructor
  · unfold Store.delete_topic_node
    have hcnt : s.nodes.countP (fun n => n.id == id) = 0 := by
      rw [List.countP_eq_zero]
      intro a ha
      simp [h a ha]
    rw [hcnt]
    rfl
  · exact ⟨_, rfl⟩

/-- C8 witness: the amended statement applied at a concrete store. -/
theorem c8_delete_semantics_witness :
    c8Store.delete_topic_node "missing" = .error .NotFound ∧
    (c8Store.delete_topic_nodes_by_canvas "nocanvas").isOk = true := by
  obtain ⟨h1, s2, h2⟩ := c8_delete_semantics c8Store "missing" "nocanvas"
    (by decide)
  exact ⟨h1, by rw [h2]; rfl⟩

/-- C9: on every successful create-node call, a supplied `parent_node_id`
forces the created topic's kind to "generated" (whatever `node_type` the
request carried) and a `RELATED_TO` relationship from the parent to the
new node is created in the same call; with no parent the requested
`node_type` (default "original") is used and no relationship is
created. -/
theorem c9_parent_forces_generated (s : Store) (nid rid : String)
    (req : CreateNodeRequest) (s' : Store) (node : GraphNode)
    (hok : create_node s nid rid req = .ok (s', node)) :
    (∀ pid, req.parent_node_id = some pid →
      node.node_type = "generated" ∧
      ∃ r : StoredRel, s'.rels = s.rels ++ [r] ∧ r.sourceId = pid ∧
        r.targetId = node.id ∧ r.canvasId = req.canvas_id) ∧
    (req.parent_node_id = none →
      node.node_type = req.node_type.getD "original" ∧ s'.rels = s.rels) := by
  unfold create_node at hok
  cases hval : validate_create_request req with
  | error e => rw [hval] at hok; dsimp only at hok; cases hok
  | ok u =>
    rw [hval] at hok
    dsimp only at hok
    cases hc : s.get_canvas_by_id req.canvas_id with
    | none => rw [hc] at hok; dsimp only at hok; cases hok
    | some canvas =>
      rw [hc] at hok
      dsimp only at hok
      cases hg : s.get_topic_node_by_name_and_canvas req.name req.canvas_id with
      | some g => rw [hg] at hok; dsimp only at hok; cases hok
      | none =>
        rw [hg] at hok
        dsimp only at hok
        cases hparent : req.parent_node_id with
        | some pid =>
          rw [hparent] at hok
          dsimp only at hok
          simp only [Option.isSome_some, if_true] at hok
          cases hcr : s.create_topic_node
              { id := (insertNodeOfRequest nid req).id,
                canvas_id := (insertNodeOfRequest nid req).canvas_id,
                name := (insertNodeOfRequest nid req).name,
                node_type := "generated",
                description := (insertNodeOfRequest nid req).description,
                knowledge := (insertNodeOfRequest nid req).knowledge,
                position_x := (insertNodeOfRequest nid req).position_x,
                position_y := (insertNodeOfRequest nid req).position_y } with
          | error e => rw [hcr] at hok; dsimp only at hok; cases hok
          | ok pair =>
            obtain ⟨s1, new_node⟩ := pair
            rw [hcr] at hok
            dsimp only at hok
            obtain ⟨stored, hn1, hr1, hc1, hg1, hname, htype, hcanvas, hid⟩ :=
              create_topic_node_ok hcr
            cases hcrel : s1.create_relationship
                { id := rid, canvas_id := req.canvas_id, source_id := pid,
                  target_id := new_node.id } with
            | error e => rw [hcrel] at hok; dsimp only at hok; cases hok
            | ok pair2 =>
              obtain ⟨s2, rel⟩ := pair2
              rw [hcrel] at hok
              dsimp only at hok
              obtain ⟨h1, h2⟩ := Prod.mk.injEq .. ▸ (Except.ok.injEq .. ▸ hok :)
              obtain ⟨storedR, hn2, hc2, hr2, hrid, hsid, hsrc, htgt, hcv2⟩ :=
                create_relationship_ok hcrel
              subst h2
              constructor
              · intro pid2 hp2
                obtain rfl := (Option.some.injEq .. ▸ hp2 :)
                refine ⟨?_, storedR, ?_, hsrc, htgt, hcv2⟩
                · rw [hg1]; exact htype
                · rw [← h1, hr2, hr1]
              · intro hnone
                cases hnone
        | none =>
          rw [hparent] at hok
          dsimp only at hok
          simp only [Option.isSome_none, Bool.false_eq_true, if_false] at hok
          cases hcr : s.create_topic_node
              { id := (insertNodeOfRequest nid req).id,
                canvas_id := (insertNodeOfRequest nid req).canvas_id,
                name := (insertNodeOfRequest nid req).name,
                node_type := req.node_type.getD "original",
                description := (insertNodeOfRequest nid req).description,
                knowledge := (insertNodeOfRequest nid req).knowledge,
                position_x := (insertNodeOfRequest nid req).position_x,
                position_y := (insertNodeOfRequest nid req).position_y } with
          | error e => rw [hcr] at hok; dsimp only at hok; cases hok
          | ok pair =>
            obtain ⟨s1, new_node⟩ := pair
            rw [hcr] at hok
            dsimp only at hok
            obtain ⟨stored, hn1, hr1, hc1, hg1, hname, htype, hcanvas, hid⟩ :=
              create_topic_node_ok hcr
            obtain ⟨h1, h2⟩ := Prod.mk.injEq .. ▸ (Except.ok.injEq .. ▸ hok :)
            subst h2
            constructor
            · intro pid2 hp2
              cases hp2
            · intro _
              refine ⟨?_, ?_⟩
              · rw [hg1]; exact htype
              · rw [← h1, hr1]

/-- C9 witness: the statement applied at a concrete request that supplies
both a parent and an explicit `node_type` of "original": the created node
is nevertheless "generated". -/
theorem c9_parent_forces_generated_witness :
    (create_node c9Store "n9" "r9" c9Req).map (fun out => out.2.node_type) =
      .ok "generated" := by
  cases hok : create_node c9Store "n9" "r9" c9Req with
  | error e => exact absurd hok (by rw [show create_node c9Store "n9" "r9" c9Req =
      .ok ({ canvases := c9Store.canvases,
             nodes := c9Store.nodes ++
               [{ id := "n9", canvasId := "c9", name := "Child",
                  nodeType := "generated", description := "", knowledge := "",
                  positionX := 0.0, positionY := 0.0 }],
             rels := [{ id := "r9", canvasId := "c9", sourceId := "p9",
                        targetId := "n9" }],
             contains := c9Store.contains ++ [("c9", "n9")] },
           node_to_graph_node
             { id := "n9", canvasId := "c9", name := "Child",
               nodeType := "generated", description := "", knowledge := "",
               positionX := 0.0, positionY := 0.0 }) from rfl]; simp)
  | ok pair =>
    obtain ⟨s9, node9⟩ := pair
    have h := (c9_parent_forces_generated c9Store "n9" "r9" c9Req s9 node9 hok).1
      "p9" rfl
    simp [Except.map, h.1]

theorem chainB_of_cons {edge : String → String → Bool} {a : String} {l : List String}
    (h : chainB edge (a :: l) = true) : chainB edge l = true := by
  cases l with
  | nil => rfl
  | cons b t =>
    rw [chainB] at h
    exact (Bool.and_eq_true_iff.mp h).2

theorem chainB_suffix {edge : String → String → Bool} :
    ∀ (l₁ l₂ : List String), chainB edge (l₁ ++ l₂) = true → chainB edge l₂ = true := by
  intro l₁
  induction l₁ with
  | nil => intro l₂ h; exact h
  | cons a t ih =>
    intro l₂ h
    exact ih l₂ (chainB_of_cons h)

theorem chainB_cons_ne_nil {edge : String → String → Bool} {a b : String} {t : List String}
    (hab : edge a b = true) (h : chainB edge (b :: t) = true) :
    chainB edge (a :: b :: t) = true := by
  rw [chainB, hab, h]
  rfl

theorem getLast?_cons_cons {a b : String} {t : List String} :
    (a :: b :: t).getLast? = (b :: t).getLast? := by
  rfl

theorem chainB_shorten (edge : String → String → Bool) :
    ∀ (fuel : Nat) (p : List String), p.length ≤ fuel → chainB edge p = true →
    ∃ q, chainB edge q = true ∧ q.Nodup ∧ q.length ≤ p.length ∧
      q.head? = p.head? ∧ q.getLast? = p.getLast? ∧ q ⊆ p := by
  intro fuel
  induction fuel with
  | zero =>
    intro p hlen _
    have : p = [] := List.length_eq_zero.mp (Nat.le_zero.mp hlen)
    subst this
    exact ⟨[], rfl, List.nodup_nil, Nat.le_refl _, rfl, rfl, fun x hx => hx⟩
  | succ fuel ih =>
    intro p hlen hchain
    cases p with
    | nil => exact ⟨[], rfl, List.nodup_nil, Nat.le_refl _, rfl, rfl, fun x hx => hx⟩
    | cons x rest =>
      by_cases hx : x ∈ rest
      · obtain ⟨l1, l2, hrest⟩ := List.append_of_mem hx
        subst hrest
        have hsplit : x :: (l1 ++ x :: l2) = (x :: l1) ++ (x :: l2) := by simp
        have hchain2 : chainB edge (x :: l2) = true := by
          rw [hsplit] at hchain
          exact chainB_suffix (x :: l1) (x :: l2) hchain
        have hlen2 : (x :: l2).length ≤ fuel := by
          simp only [List.length_cons, List.length_append] at hlen ⊢
          omega
        obtain ⟨q, hq1, hq2, hq3, hq4, hq5, hq6⟩ := ih (x :: l2) hlen2 hchain2
        refine ⟨q, hq1, hq2, ?_, hq4, ?_, ?_⟩
        · simp only [List.length_cons, List.length_append] at hq3 ⊢
          omega
        · rw [hq5, hsplit, List.getLast?_append_of_ne_nil]
          simp
        · intro y hy
          have hmem := hq6 hy
          rcases List.mem_cons.mp hmem with h | h
          · subst h; exact List.mem_cons_self _ _
          · exact List.mem_cons_of_mem _ (List.mem_append_right l1 (List.mem_cons_of_mem _ h))
      · have hchainr : chainB edge rest = true := chainB_of_cons hchain
        have hlenr : rest.length ≤ fuel := by
          simp only [List.length_cons] at hlen
          omega
        obtain ⟨q, hq1, hq2, hq3, hq4, hq5, hq6⟩ := ih rest hlenr hchainr
        cases rest with
        | nil =>
          have : q = [] := List.eq_nil_of_subset_nil hq6
          subst this
          exact ⟨[x], rfl, List.nodup_singleton x, by simp, rfl, rfl,
            fun y hy => hy⟩
        | cons b t =>
          cases q with
          | nil => cases hq4
          | cons qb qt =>
            have hqb : qb = b := by
              have h4 := hq4
              simp only [List.head?_cons] at h4
              exact (Option.some.injEq .. ▸ h4 :)
            subst hqb
            have hedge : edge x qb = true := by
              rw [chainB] at hchain
              exact (Bool.and_eq_true_iff.mp hchain).1
            refine ⟨x :: qb :: qt, chainB_cons_ne_nil hedge hq1, ?_, ?_, rfl, ?_, ?_⟩
            · exact List.nodup_cons.mpr ⟨fun hmem => hx (hq6 hmem), hq2⟩
            · simp only [List.length_cons] at hq3 ⊢
              omega
            · rw [getLast?_cons_cons, hq5, getLast?_cons_cons]
            · intro y hy
              rcases List.mem_cons.mp hy with h | h
              · subst h; exact List.mem_cons_self _ _
              · exact List.mem_cons_of_mem _ (hq6 h)

theorem rootWalkB_iff {s : Store} {tid cid : String} {p : List String} :
    s.rootWalkB tid cid p = true ↔
    p.isEmpty = false ∧ (∀ x ∈ p, x ∈ s.nodeIds) ∧
    chainB s.isEdge p = true ∧ s.isQueryRoot cid p.headI = true ∧
    p.getLastD "" = tid := by
  unfold Store.rootWalkB
  simp [List.all_eq_true, Bool.and_eq_true_iff, and_assoc]

theorem headI_congr {q p : List String} (h : q.head? = p.head?) : q.headI = p.headI := by
  cases q <;> cases p <;> simp_all

theorem rootWalkB_shorten {s : Store} {tid cid : String} {p : List String}
    (hw : s.rootWalkB tid cid p = true) :
    ∃ q, s.rootWalkB tid cid q = true ∧ q.Nodup ∧ q.length ≤ p.length := by
  obtain ⟨hne, hall, hchain, hroot, hlast⟩ := rootWalkB_iff.mp hw
  obtain ⟨q, hq1, hq2, hq3, hq4, hq5, hq6⟩ :=
    chainB_shorten s.isEdge p.length p (Nat.le_refl _) hchain
  have hqne : q.isEmpty = false := by
    cases q with
    | cons a t => rfl
    | nil =>
      cases p with
      | nil => simp at hne
      | cons b t2 => simp at hq4
  refine ⟨q, rootWalkB_iff.mpr ⟨hqne, ?_, hq1, ?_, ?_⟩, hq2, hq3⟩
  · intro x hx
    exact hall x (hq6 hx)
  · rw [headI_congr hq4]
    exact hroot
  · rw [List.getLastD_eq_getLast?, hq5, ← List.getLastD_eq_getLast?]
    exact hlast

theorem mem_candidatePaths {s : Store} (hnd : s.nodeIds.Nodup) {p : List String}
    (hp : p.Nodup) (hsub : ∀ x ∈ p, x ∈ s.nodeIds) : p ∈ s.candidatePaths := by
  unfold Store.candidatePaths
  rw [List.mem_flatMap]
  refine ⟨s.nodeIds.filter (fun x => decide (x ∈ p)), ?_, ?_⟩
  · rw [List.mem_sublists]
    exact List.filter_sublist _
  · rw [List.mem_permutations']
    have hfn : (s.nodeIds.filter (fun x => decide (x ∈ p))).Nodup := hnd.filter _
    rw [List.perm_ext_iff_of_nodup hp hfn]
    intro a
    rw [List.mem_filter]
    simp only [decide_eq_true_eq]
    exact ⟨fun ha => ⟨hsub a ha, ha⟩, fun h => h.2⟩

theorem candidatePaths_nodup {s : Store} (hnd : s.nodeIds.Nodup) {q : List String}
    (hq : q ∈ s.candidatePaths) : q.Nodup := by
  unfold Store.candidatePaths at hq
  rw [List.mem_flatMap] at hq
  obtain ⟨t, ht, hqt⟩ := hq
  rw [List.mem_sublists] at ht
  rw [List.mem_permutations'] at hqt
  exact hqt.nodup_iff.mpr (ht.nodup hnd)

/-- C5: in a store whose topic ids are distinct, `get_topic_node_path`
returns the names of an actual shortest root-to-topic walk along
`RELATED_TO` edges (root-to-leaf order): for a topic reachable from a
canvas root via N edges (N minimal) it returns exactly N+1 names, the
last being the topic's own name; for a topic unreachable from every
zero-incoming-edge canvas node it returns the empty list rather than an
error. -/
theorem c5_path_to_root (s : Store) (topic_id canvas_id : String)
    (hnd : s.nodeIds.Nodup) :
    ((∃ p, s.rootWalkB topic_id canvas_id p = true) →
      ∃ p, s.rootWalkB topic_id canvas_id p = true ∧ p.Nodup ∧
        s.get_topic_node_path topic_id canvas_id = p.map s.nameOf ∧
        (s.get_topic_node_path topic_id canvas_id).length = p.length ∧
        (∀ q, s.rootWalkB topic_id canvas_id q = true → p.length ≤ q.length) ∧
        (s.get_topic_node_path topic_id canvas_id).getLast? =
          some (s.nameOf topic_id)) ∧
    ((¬ ∃ p, s.rootWalkB topic_id canvas_id p = true) →
      s.get_topic_node_path topic_id canvas_id = []) := by
  constructor
  · rintro ⟨p0, hw0⟩
    obtain ⟨p1, hw1, hnd1, _⟩ := rootWalkB_shorten hw0
    have hall1 : ∀ x ∈ p1, x ∈ s.nodeIds := (rootWalkB_iff.mp hw1).2.1
    have hmem1 : p1 ∈ (s.candidatePaths.filter (s.rootWalkB topic_id canvas_id)) :=
      List.mem_filter.mpr ⟨mem_candidatePaths hnd hnd1 hall1, hw1⟩
    cases hargmin : (s.candidatePaths.filter
        (s.rootWalkB topic_id canvas_id)).argmin List.length with
    | none =>
      rw [List.argmin_eq_none] at hargmin
      rw [hargmin] at hmem1
      cases hmem1
    | some m =>
      have hmF := List.argmin_mem (Option.mem_def.mpr hargmin)
      have hwm : s.rootWalkB topic_id canvas_id m = true := (List.mem_filter.mp hmF).2
      have hmin : ∀ q, s.rootWalkB topic_id canvas_id q = true →
          m.length ≤ q.length := by
        intro q hq
        obtain ⟨q1, hwq1, hndq1, hlenq1⟩ := rootWalkB_shorten hq
        have hallq1 : ∀ x ∈ q1, x ∈ s.nodeIds := (rootWalkB_iff.mp hwq1).2.1
        have hq1mem : q1 ∈ (s.candidatePaths.filter
            (s.rootWalkB topic_id canvas_id)) :=
          List.mem_filter.mpr ⟨mem_candidatePaths hnd hndq1 hallq1, hwq1⟩
        exact Nat.le_trans
          (List.le_of_mem_argmin hq1mem (Option.mem_def.mpr hargmin)) hlenq1
      have hres : s.get_topic_node_path topic_id canvas_id = m.map s.nameOf := by
        unfold Store.get_topic_node_path
        rw [hargmin]
      have hndm : m.Nodup := candidatePaths_nodup hnd (List.mem_filter.mp hmF).1
      have hmlast : m.getLast? = some topic_id := by
        obtain ⟨hne, _, _, _, hlast⟩ := rootWalkB_iff.mp hwm
        rw [List.getLastD_eq_getLast?] at hlast
        cases hg : m.getLast? with
        | none =>
          rw [List.getLast?_eq_none_iff] at hg
          subst hg
          simp at hne
        | some z =>
          rw [hg] at hlast
          simp only [Option.getD_some] at hlast
          rw [hlast]
      refine ⟨m, hwm, hndm, hres, by rw [hres, List.length_map], hmin, ?_⟩
      rw [hres, List.getLast?_map, hmlast]
      rfl
  · intro hnone
    unfold Store.get_topic_node_path
    have hfe : (s.candidatePaths.filter (s.rootWalkB topic_id canvas_id)) = [] := by
      rw [List.filter_eq_nil_iff]
      intro a _ hwa
      exact hnone ⟨a, hwa⟩
    rw [hfe]
    rfl

/-- C5 witness: the statement applied at a concrete two-node store; the
path from the root "Biology" to "Genetics" has 2 names and ends in the
topic's own name. -/
theorem c5_path_to_root_witness :
    c5Store.get_topic_node_path "a5" "c5" = ["Biology", "Genetics"] ∧
    (c5Store.get_topic_node_path "a5" "c5").getLast? = some (c5Store.nameOf "a5") := by
  obtain ⟨p, _, _, _, _, _, hlast⟩ :=
    (c5_path_to_root c5Store "a5" "c5" (by decide)).1 ⟨["r5", "a5"], by decide⟩
  exact ⟨by decide, hlast⟩
